import Mathlib

/-!
SmartPlay-AI front-end scripts

A shallow embedding of `static/controls.js` (dark-mode and background-music
preferences mirrored to `localStorage`) and `static/leaderboard.js` (fetching,
sorting and paginating the leaderboard), followed by the properties proved
about them.

Conventions of the embedding:

* `localStorage` is a finite map from keys to strings, written as a function
  `String → Option String` (`none`: the key is absent).
* A DOM element that a script looks up with `getElementById` and tests for
  existence is an `Option`/`Bool` field; an element it uses without a test is
  a plain field.
* An `async` function is cut at its single `await fetch(url)`: the part before
  it issues the request (the URL is appended to `requests`), the part after it
  (`…Settle`) consumes the outcome of the fetch. The composite (`loadData`,
  `loadLeaderboard`, `loadDetailedView`) takes the network as a function from
  URLs to outcomes.
* The records of the fetched JSON arrays are values of an arbitrary type `ρ`;
  `time r` is the time value of `new Date(r.created_at)`, `none` for an Invalid
  Date (`NaN`).
* The HTML written to `#leaderboard-list` is kept as the template that was
  instantiated together with the data it was instantiated with.
-/

namespace SmartPlay

/-! ## Browser storage -/

/-- The contents of `localStorage`. -/
abbrev Storage := String → Option String

/-- Lookup `localStorage.getItem(key)`; `none` is `null`. -/
def Storage.getItem (st : Storage) (key : String) : Option String := st key

/-- Update `localStorage.setItem(key, value)`. -/
def Storage.setItem (st : Storage) (key value : String) : Storage :=
  fun k => if k = key then some value else st k

/-- Removal `localStorage.removeItem(key)`. -/
def Storage.removeItem (st : Storage) (key : String) : Storage :=
  fun k => if k = key then none else st k

/-- String conversion of a boolean, as `setItem` applies it to its value. -/
def jsString (b : Bool) : String := if b then "true" else "false"

/-! ## controls.js -/

/-- The `#bgMusic` audio element. `autoplayBlocked` is the browser's autoplay
policy: while it holds, the promise of `play()` rejects and playback does not
start. -/
structure MediaElement where
  paused : Bool
  currentTime : Nat
  autoplayBlocked : Bool
deriving DecidableEq, Repr

/-- The call `bgMusic.play()`, with the rejection swallowed by `p.catch(() => {})`. -/
def MediaElement.play (m : MediaElement) : MediaElement :=
  if m.autoplayBlocked then m else { m with paused := false }

/-- The statements `bgMusic.pause(); bgMusic.currentTime = 0`. -/
def MediaElement.stop (m : MediaElement) : MediaElement :=
  { m with paused := true, currentTime := 0 }

/-- The page as `controls.js` sees it, with the closure variable
`musicEnabled` of its `DOMContentLoaded` handler. -/
structure ControlsPage where
  /-- the contents of `localStorage` -/
  storage : Storage
  /-- whether `document.body.classList` contains `dark-mode` -/
  bodyDark : Bool
  /-- whether `#themeToggle` exists -/
  themeToggle : Bool
  /-- the `className` of `#themeIcon`, `none` when the element does not exist -/
  themeIcon : Option String
  /-- the element `#bgMusic`, `none` when it does not exist -/
  bgMusic : Option MediaElement
  /-- whether `#musicToggle` exists -/
  musicToggle : Bool
  /-- the `className` of `#musicIcon`, `none` when the element does not exist -/
  musicIcon : Option String
  /-- the closure variable `musicEnabled` -/
  musicEnabled : Bool
  /-- whether the one-shot `unlock` listeners are still registered -/
  unlockPending : Bool

/-- The icon class `isDark ? "fas fa-sun" : "fas fa-moon"`. -/
def themeIconClass (isDark : Bool) : String :=
  if isDark then "fas fa-sun" else "fas fa-moon"

/-- The icon class `musicEnabled ? "fas fa-volume-up" : "fas fa-volume-mute"`. -/
def musicIconClass (musicEnabled : Bool) : String :=
  if musicEnabled then "fas fa-volume-up" else "fas fa-volume-mute"

/-- The function `applyMusicState()` of controls.js. -/
def applyMusicState (p : ControlsPage) : ControlsPage :=
  let p : ControlsPage :=
    match p.bgMusic with
    | some m => { p with bgMusic := some (if p.musicEnabled then m.play else m.stop) }
    | none => p
  match p.musicIcon with
  | some _ => { p with musicIcon := some (musicIconClass p.musicEnabled) }
  | none => p

/-- The click listener of `#themeToggle`. -/
def themeToggleClick (p : ControlsPage) : ControlsPage :=
  let isDark := !p.bodyDark
  let p : ControlsPage :=
    { p with bodyDark := isDark, storage := p.storage.setItem "darkMode" (jsString isDark) }
  match p.themeIcon with
  | some _ => { p with themeIcon := some (themeIconClass isDark) }
  | none => p

/-- The click listener of `#musicToggle`. -/
def musicToggleClick (p : ControlsPage) : ControlsPage :=
  let p : ControlsPage := { p with musicEnabled := !p.musicEnabled }
  let p : ControlsPage :=
    { p with storage := p.storage.setItem "musicEnabled" (jsString p.musicEnabled) }
  applyMusicState p

/-- The `unlock` listener: one more `play()`, then the listeners are removed. -/
def unlock (p : ControlsPage) : ControlsPage :=
  { p with bgMusic := p.bgMusic.map MediaElement.play, unlockPending := false }

/-- The `DOMContentLoaded` listener of controls.js, run on the page as it was
parsed (the fields `musicEnabled` and `unlockPending` of the argument are
overwritten). -/
def domContentLoaded (p : ControlsPage) : ControlsPage :=
  let darkSaved := decide (p.storage.getItem "darkMode" = some "true")
  let p : ControlsPage := if darkSaved then { p with bodyDark := true } else p
  let p : ControlsPage :=
    match p.themeIcon with
    | some _ => { p with themeIcon := some (themeIconClass darkSaved) }
    | none => p
  let p : ControlsPage :=
    { p with musicEnabled := !decide (p.storage.getItem "musicEnabled" = some "false") }
  let p := applyMusicState p
  { p with unlockPending := p.bgMusic.isSome && p.musicEnabled }

/-- What the user can do on a page with controls.js. -/
inductive ControlsEvent where
  | themeClick
  | musicClick
  /-- a first `pointerdown`, `keydown` or `touchstart`: lifts the autoplay block -/
  | gesture
deriving DecidableEq, Repr

/-- Dispatch of one event to the listeners registered by `domContentLoaded`. -/
def ControlsPage.handle (p : ControlsPage) : ControlsEvent → ControlsPage
  | .themeClick => if p.themeToggle then themeToggleClick p else p
  | .musicClick => if p.musicToggle then musicToggleClick p else p
  | .gesture =>
    let p : ControlsPage :=
      { p with bgMusic := p.bgMusic.map fun m => { m with autoplayBlocked := false } }
    if p.unlockPending then unlock p else p

/-- A sequence of events, oldest first. -/
def ControlsPage.run (p : ControlsPage) (events : List ControlsEvent) : ControlsPage :=
  events.foldl ControlsPage.handle p

/-! ## leaderboard.js -/

/-- What `response.json()` resolves to. Of a value that is not an array the
script only observes whether it is falsy (`!data`) and, if not, whether its
`length` is `0`. -/
inductive Json (ρ : Type) where
  | array (items : List ρ)
  | falsy
  | lengthZero
  | other
deriving DecidableEq, Repr

/-- The outcome of `await fetch(url)`: the promise rejects (network error), or
resolves to a response with its `ok` flag and its body (`none`: the body is
not JSON, so `response.json()` rejects). -/
inductive FetchResult (ρ : Type) where
  | rejected (reason : String)
  | response (ok : Bool) (body : Option (Json ρ))
deriving DecidableEq, Repr

/-- The `innerHTML` of `#leaderboard-list`. -/
inductive Html (ρ : Type) where
  /-- markup shipped with the page -/
  | markup (text : String)
  /-- the template `<div class="no-data"><i class="ICON"></i><p>MESSAGE</p></div>` -/
  | noData (icon : String) (message : String)
  /-- the `.leaderboard-item` template mapped over `data` and joined -/
  | leaderboardItems (data : List ρ)
  /-- the `.detail-card` template mapped over `data` and joined -/
  | detailCards (data : List ρ)
deriving DecidableEq, Repr

/-- Module variables of leaderboard.js, the DOM properties it writes, and the
environment (storage, the requests issued so far, the console). -/
structure State (ρ : Type) where
  /-- the `dataset.theme` of the last clicked `.theme-btn`; `none` is `undefined` -/
  currentTheme : Option String
  currentView : String
  currentLikedFilter : String
  allDetailedData : List ρ
  currentPage : Int
  /-- the `textContent` of `#theme-badge` -/
  themeBadge : String
  /-- the `style.display` of `#like-filter-container` -/
  likeFilterDisplay : String
  /-- the `style.display` of `#pagination-controls` -/
  paginationDisplay : String
  /-- the `innerHTML` of `#leaderboard-list` -/
  leaderboardList : Html ρ
  /-- the `textContent` of `#page-start` -/
  pageStart : String
  /-- the `textContent` of `#page-end` -/
  pageEnd : String
  /-- the `textContent` of `#total-items` -/
  totalItems : String
  /-- the `textContent` of `#current-page-num` -/
  currentPageNum : String
  /-- the `disabled` of `#prev-page-btn` -/
  prevDisabled : Bool
  /-- the `disabled` of `#next-page-btn` -/
  nextDisabled : Bool
  storage : Storage
  /-- the URLs passed to `fetch`, oldest first -/
  requests : List String
  /-- the lines written by `console.error` -/
  console : List String

/-- The constant `itemsPerPage`. -/
def itemsPerPage : Nat := 10

/-- The value of `Math.ceil(totalItems / itemsPerPage)` for an array length `totalItems`
(see `totalPages_eq_ceil`). -/
def totalPages (totalItems : Nat) : Nat := (totalItems + (itemsPerPage - 1)) / itemsPerPage

/-- Resolution of a relative index of `Array.prototype.slice`: a negative index
counts from the end, and the result is clamped to `[0, len]`. -/
def relativeIndex (len : Nat) (i : Int) : Nat :=
  if i < 0 then (Int.ofNat len + i).toNat else min i.toNat len

/-- The call `xs.slice(start, end)`. -/
def slice {ρ : Type} (xs : List ρ) (start stop : Int) : List ρ :=
  let k := relativeIndex xs.length start
  let final := relativeIndex xs.length stop
  (xs.drop k).take (final - k)

/-- The comparator `(a, b) => new Date(b.created_at) - new Date(a.created_at)`;
`none` is `NaN`. -/
def compareFn {ρ : Type} (time : ρ → Option Int) (a b : ρ) : Option Int :=
  match time b, time a with
  | some tb, some ta => some (tb - ta)
  | _, _ => none

/-- The value `Array.prototype.sort` works with: a `NaN` from the comparator
counts as `+0`. -/
def sortCompare {ρ : Type} (time : ρ → Option Int) (a b : ρ) : Int :=
  (compareFn time a b).getD 0

/-- Insertion of `x`, which preceded all of `ys` in the input, into the sorted
`ys`: before the first element it does not have to follow. -/
def sortInsert {ρ : Type} (time : ρ → Option Int) (x : ρ) : List ρ → List ρ
  | [] => [x]
  | y :: ys => if sortCompare time x y ≤ 0 then x :: y :: ys else y :: sortInsert time x ys

/-- The call `xs.sort(compareFn)`, as a stable insertion sort. For a comparator that
is consistent, as this one is on valid dates, the result of a stable sort does
not depend on the algorithm. -/
def arraySort {ρ : Type} (time : ρ → Option Int) : List ρ → List ρ
  | [] => []
  | x :: xs => sortInsert time x (arraySort time xs)

/-- The failure placeholder written by the two `catch` blocks. -/
def failedHtml {ρ : Type} (message : String) : Html ρ :=
  .noData "fas fa-exclamation-circle fa-3x text-danger mb-3" message

/-- The function `displayLeaderboard(data)`; it throws when `data.map` is not a
function. -/
def displayLeaderboard {ρ : Type} (data : Json ρ) (s : State ρ) : Except String (State ρ) :=
  let empty : State ρ :=
    { s with leaderboardList :=
        .noData "fas fa-users fa-3x text-muted mb-3" "No players yet. Be the first to play!" }
  match data with
  | .falsy => pure empty
  | .lengthZero => pure empty
  | .array items =>
    if items.length = 0 then pure empty
    else pure { s with leaderboardList := .leaderboardItems items }
  | .other => throw "TypeError: data.map is not a function"

/-- The function `displayDetailedView(data)`. -/
def displayDetailedView {ρ : Type} (data : List ρ) (s : State ρ) : State ρ :=
  if data.length = 0 then
    { s with leaderboardList :=
        .noData "fas fa-inbox fa-3x text-muted mb-3" "No responses found for this filter." }
  else { s with leaderboardList := .detailCards data }

/-- The function `displayDetailedViewWithPagination()`. -/
def displayDetailedViewWithPagination {ρ : Type} (s : State ρ) : State ρ :=
  if s.allDetailedData.length = 0 then
    { displayDetailedView [] s with paginationDisplay := "none" }
  else
    let totalItems : Nat := s.allDetailedData.length
    let totalPages : Nat := totalPages totalItems
    let startIndex : Int := (s.currentPage - 1) * itemsPerPage
    let endIndex : Int := min (startIndex + itemsPerPage) totalItems
    let pageData := slice s.allDetailedData startIndex endIndex
    let s := displayDetailedView pageData s
    { s with
      paginationDisplay := "block"
      pageStart := toString (startIndex + 1)
      pageEnd := toString endIndex
      totalItems := toString totalItems
      currentPageNum := toString s.currentPage
      prevDisabled := decide (s.currentPage = 1)
      nextDisabled := decide (s.currentPage ≥ totalPages) }

/-- The URL built by `loadLeaderboard`; `currentTheme` is truthy when it is a
non-empty string. -/
def loadLeaderboardUrl {ρ : Type} (s : State ρ) : String :=
  match s.currentTheme with
  | some theme => if theme ≠ "" then "/leaderboard?theme=" ++ theme else "/leaderboard"
  | none => "/leaderboard"

/-- The URL built by `loadDetailedView`. -/
def loadDetailedViewUrl {ρ : Type} (s : State ρ) : String :=
  if s.currentLikedFilter ≠ "" then "/responses/feedback?liked=" ++ s.currentLikedFilter
  else
    match s.currentTheme with
    | some theme =>
      if theme ≠ "" then "/leaderboard/details?theme=" ++ theme else "/leaderboard/details"
    | none => "/leaderboard/details"

/-- The call `fetch(url)`. -/
def request {ρ : Type} (url : String) (s : State ρ) : State ρ :=
  { s with requests := s.requests ++ [url] }

/-- The `try` block of `loadLeaderboard` from the point where `fetch` settles. -/
def loadLeaderboardTry {ρ : Type} (r : FetchResult ρ) (s : State ρ) :
    Except String (State ρ) :=
  match r with
  | .rejected reason => throw reason
  | .response ok body =>
    if !ok then throw "Failed to load leaderboard"
    else
      match body with
      | none => throw "SyntaxError"
      | some data => displayLeaderboard data s

/-- The rest of `loadLeaderboard` once `fetch` has settled with `r`. -/
def loadLeaderboardSettle {ρ : Type} (r : FetchResult ρ) (s : State ρ) :
    Except String (State ρ) :=
  match loadLeaderboardTry r s with
  | .ok s => pure s
  | .error error =>
    pure { s with
      console := s.console ++ ["Error: " ++ error]
      leaderboardList := failedHtml "Failed to load leaderboard" }

/-- The `try` block of `loadDetailedView` from the point where `fetch` settles. -/
def loadDetailedViewTry {ρ : Type} (time : ρ → Option Int) (r : FetchResult ρ) (s : State ρ) :
    Except String (State ρ) :=
  match r with
  | .rejected reason => throw reason
  | .response ok body =>
    if !ok then throw "Failed to load details"
    else
      match body with
      | some (.array items) =>
        pure (displayDetailedViewWithPagination
          { s with allDetailedData := arraySort time items, currentPage := 1 })
      | some _ => throw "TypeError: sort is not a function"
      | none => throw "SyntaxError"

/-- The rest of `loadDetailedView` once `fetch` has settled with `r`. -/
def loadDetailedViewSettle {ρ : Type} (time : ρ → Option Int) (r : FetchResult ρ)
    (s : State ρ) : Except String (State ρ) :=
  match loadDetailedViewTry time r s with
  | .ok s => pure s
  | .error error =>
    pure { s with
      console := s.console ++ ["Error: " ++ error]
      leaderboardList := failedHtml "Failed to load detailed view" }

/-- The function `loadLeaderboard()` run to completion against the network `fetch`. -/
def loadLeaderboard {ρ : Type} (fetch : String → FetchResult ρ) (s : State ρ) :
    Except String (State ρ) :=
  let url := loadLeaderboardUrl s
  loadLeaderboardSettle (fetch url) (request url s)

/-- The function `loadDetailedView()` run to completion against the network `fetch`. -/
def loadDetailedView {ρ : Type} (time : ρ → Option Int) (fetch : String → FetchResult ρ)
    (s : State ρ) : Except String (State ρ) :=
  let url := loadDetailedViewUrl s
  loadDetailedViewSettle time (fetch url) (request url s)

/-- The function `loadData()` run to completion against the network `fetch`. -/
def loadData {ρ : Type} (time : ρ → Option Int) (fetch : String → FetchResult ρ)
    (s : State ρ) : Except String (State ρ) :=
  if s.currentView = "summary" then loadLeaderboard fetch s else loadDetailedView time fetch s

/-- The synchronous part of a call `loadData()` that is not awaited: up to and
including the call of `fetch`. -/
def loadDataStart {ρ : Type} (s : State ρ) : State ρ :=
  if s.currentView = "summary" then request (loadLeaderboardUrl s) s
  else request (loadDetailedViewUrl s) s

/-- The click listener of a `.theme-btn` with the given `dataset.theme` and
`textContent`. -/
def themeBtnClick {ρ : Type} (theme : Option String) (textContent : String) (s : State ρ) :
    State ρ :=
  loadDataStart { s with currentTheme := theme, themeBadge := textContent, currentPage := 1 }

/-- The click listener of a `.toggle-btn[data-view]`. -/
def viewToggleClick {ρ : Type} (view : String) (s : State ρ) : State ρ :=
  let s : State ρ := { s with currentView := view }
  let s : State ρ :=
    if s.currentView = "detailed" then { s with likeFilterDisplay := "flex" }
    else { s with likeFilterDisplay := "none", paginationDisplay := "none" }
  loadDataStart s

/-- The click listener of a `.toggle-btn[data-liked]`. -/
def likeFilterClick {ρ : Type} (liked : String) (s : State ρ) : State ρ :=
  loadDataStart { s with currentLikedFilter := liked, currentPage := 1 }

/-- The click listener of `#prev-page-btn`. -/
def prevPageClick {ρ : Type} (s : State ρ) : State ρ :=
  if s.currentPage > 1 then
    displayDetailedViewWithPagination { s with currentPage := s.currentPage - 1 }
  else s

/-- The click listener of `#next-page-btn`. -/
def nextPageClick {ρ : Type} (s : State ρ) : State ρ :=
  let totalPages : Nat := totalPages s.allDetailedData.length
  if s.currentPage < totalPages then
    displayDetailedViewWithPagination { s with currentPage := s.currentPage + 1 }
  else s

/-- The top-level script run on the parsed page: the module variables get their
initial values, `loadData()` is started, and the three keys are removed from
storage. -/
def onLoad {ρ : Type} (page : State ρ) : State ρ :=
  let s : State ρ :=
    { page with
      currentTheme := some ""
      currentView := "summary"
      currentLikedFilter := ""
      allDetailedData := []
      currentPage := 1 }
  let s := loadDataStart s
  let s : State ρ := { s with storage := s.storage.removeItem "gameState" }
  let s : State ρ := { s with storage := s.storage.removeItem "resultData" }
  { s with storage := s.storage.removeItem "nextQuestionData" }

/-- What can happen on the leaderboard page after the script has run: a click,
or a pending `loadLeaderboard` / `loadDetailedView` resuming with the outcome
of its fetch. A settled load is accepted in every state, whether or not such a
call is pending, so the runs of the page are among the runs of this model. -/
inductive Event (ρ : Type) where
  | themeClick (theme : Option String) (textContent : String)
  | viewClick (view : String)
  | likeClick (liked : String)
  | prevClick
  | nextClick
  | leaderboardSettled (r : FetchResult ρ)
  | detailedSettled (r : FetchResult ρ)

/-- The state a settled `async` call leaves; a rejection of its promise is
unhandled and changes nothing. -/
def settled {ρ : Type} (s : State ρ) : Except String (State ρ) → State ρ
  | .ok s' => s'
  | .error _ => s

/-- One event. -/
def step {ρ : Type} (time : ρ → Option Int) (s : State ρ) : Event ρ → State ρ
  | .themeClick theme textContent => themeBtnClick theme textContent s
  | .viewClick view => viewToggleClick view s
  | .likeClick liked => likeFilterClick liked s
  | .prevClick => prevPageClick s
  | .nextClick => nextPageClick s
  | .leaderboardSettled r => settled s (loadLeaderboardSettle r s)
  | .detailedSettled r => settled s (loadDetailedViewSettle time r s)

/-- A sequence of events, oldest first. -/
def run {ρ : Type} (time : ρ → Option Int) (s : State ρ) (events : List (Event ρ)) : State ρ :=
  events.foldl (step time) s

/-- The records whose detail cards make up the given content. -/
def Html.cards {ρ : Type} : Html ρ → List ρ
  | .detailCards data => data
  | _ => []

/-- Whether a fetch failed: the request rejected (network error) or the
response has a non-OK status. -/
def FetchResult.failed {ρ : Type} : FetchResult ρ → Bool
  | .rejected _ => true
  | .response ok _ => !ok

/-- The requested URL in the words of the specification, as a function of the
view, the theme and the like filter. -/
def expectedUrl (currentView : String) (currentTheme : Option String)
    (currentLikedFilter : String) : String :=
  let themed (base : String) : String :=
    match currentTheme with
    | some theme => if theme = "" then base else base ++ "?theme=" ++ theme
    | none => base
  if currentView = "summary" then themed "/leaderboard"
  else if currentLikedFilter = "" then themed "/leaderboard/details"
  else "/responses/feedback?liked=" ++ currentLikedFilter

/-- Both records have a valid date and the first is not older than the second. -/
def NotOlder {ρ : Type} (time : ρ → Option Int) (a b : ρ) : Prop :=
  ∃ ta tb, time a = some ta ∧ time b = some tb ∧ tb ≤ ta

/-- The page invariant: `currentPage` is at least 1 and at most the number of
pages, where an empty `allDetailedData` counts as one (empty) page. -/
def PageInRange {ρ : Type} (s : State ρ) : Prop :=
  1 ≤ s.currentPage ∧ s.currentPage ≤ max 1 (totalPages s.allDetailedData.length : Int)

/-- The body's `dark-mode` class membership is what the stored `darkMode`
says: present exactly when the stored value is `"true"`. -/
def DarkMirrored (s : ControlsPage) : Prop :=
  s.bodyDark = decide (s.storage.getItem "darkMode" = some "true")

/-- The storage mirrors the preferences of a session on the page `p`: the
music flag and icon agree with the stored `musicEnabled`, the theme icon exists
when it does on `p`, and, when the body's class agrees with the stored
`darkMode`, the theme icon agrees with it too. -/
def Mirrored (p s : ControlsPage) : Prop :=
  s.themeToggle = p.themeToggle ∧ s.musicToggle = p.musicToggle ∧
  s.musicEnabled = (!decide (s.storage.getItem "musicEnabled" = some "false")) ∧
  s.musicIcon = p.musicIcon.map (fun _ => musicIconClass s.musicEnabled) ∧
  s.themeIcon.isSome = p.themeIcon.isSome ∧
  (DarkMirrored s → s.themeIcon = p.themeIcon.map (fun _ => themeIconClass s.bodyDark))

/-- The page after `DOMContentLoaded` and the given events. -/
def ControlsPage.session (p : ControlsPage) (events : List ControlsEvent) : ControlsPage :=
  (domContentLoaded p).run events

/-- Loading the page `q` with the storage that the session `s` left. -/
def reload (q s : ControlsPage) : ControlsPage :=
  domContentLoaded { q with storage := s.storage }

/-- A page before any script has run, for concrete evaluation. -/
def blankPage (ρ : Type) : State ρ where
  currentTheme := none
  currentView := ""
  currentLikedFilter := ""
  allDetailedData := []
  currentPage := 0
  themeBadge := ""
  likeFilterDisplay := "none"
  paginationDisplay := "none"
  leaderboardList := .markup ""
  pageStart := ""
  pageEnd := ""
  totalItems := ""
  currentPageNum := ""
  prevDisabled := false
  nextDisabled := false
  storage := fun _ => none
  requests := []
  console := []

/-- A page with all control elements and empty storage, for concrete
evaluation. -/
def blankControls : ControlsPage where
  storage := fun _ => none
  bodyDark := false
  themeToggle := true
  themeIcon := some ""
  bgMusic := some { paused := true, currentTime := 0, autoplayBlocked := true }
  musicToggle := true
  musicIcon := some ""
  musicEnabled := false
  unlockPending := false

/-! ## Supporting lemmas -/

theorem totalPages_eq_ceil (n : Nat) : totalPages n = ⌈(n : ℚ) / (itemsPerPage : ℚ)⌉₊ := by
  symm
  apply le_antisymm
  · rw [Nat.ceil_le, div_le_iff₀ (by norm_num [itemsPerPage])]
    have h : n ≤ totalPages n * itemsPerPage := by
      simp only [totalPages, itemsPerPage]; omega
    exact_mod_cast h
  · by_contra hlt
    push_neg at hlt
    have h1 : ((n : ℚ) / (itemsPerPage : ℚ)) ≤ (⌈(n : ℚ) / (itemsPerPage : ℚ)⌉₊ : ℚ) :=
      Nat.le_ceil _
    rw [div_le_iff₀ (by norm_num [itemsPerPage])] at h1
    have h2 : n ≤ ⌈(n : ℚ) / (itemsPerPage : ℚ)⌉₊ * itemsPerPage := by exact_mod_cast h1
    revert h2 hlt
    generalize ⌈(n : ℚ) / (itemsPerPage : ℚ)⌉₊ = c
    simp only [totalPages, itemsPerPage]
    omega

theorem displayDetailedView_frame {ρ : Type} (data : List ρ) (s : State ρ) :
    (displayDetailedView data s).allDetailedData = s.allDetailedData ∧
    (displayDetailedView data s).currentPage = s.currentPage ∧
    (displayDetailedView data s).storage = s.storage ∧
    (displayDetailedView data s).requests = s.requests := by
  unfold displayDetailedView
  split <;> simp

theorem displayDetailedViewWithPagination_frame {ρ : Type} (s : State ρ) :
    (displayDetailedViewWithPagination s).allDetailedData = s.allDetailedData ∧
    (displayDetailedViewWithPagination s).currentPage = s.currentPage ∧
    (displayDetailedViewWithPagination s).storage = s.storage ∧
    (displayDetailedViewWithPagination s).requests = s.requests := by
  unfold displayDetailedViewWithPagination
  split
  · simp [displayDetailedView_frame]
  · simp [displayDetailedView_frame]

theorem loadLeaderboardSettle_frame {ρ : Type} (r : FetchResult ρ) (s : State ρ) :
    ∃ s', loadLeaderboardSettle r s = .ok s' ∧ s'.allDetailedData = s.allDetailedData ∧
      s'.currentPage = s.currentPage ∧ s'.storage = s.storage ∧ s'.requests = s.requests := by
  unfold loadLeaderboardSettle
  cases h : loadLeaderboardTry r s with
  | error e => exact ⟨_, rfl, rfl, rfl, rfl, rfl⟩
  | ok s₁ =>
    refine ⟨s₁, rfl, ?_⟩
    unfold loadLeaderboardTry at h
    cases r with
    | rejected reason => simp [throw, throwThe, MonadExceptOf.throw] at h
    | response ok body =>
      cases ok with
      | false => simp [throw, throwThe, MonadExceptOf.throw] at h
      | true =>
        cases body with
        | none => simp [throw, throwThe, MonadExceptOf.throw] at h
        | some data =>
          cases data with
          | array items =>
            by_cases hi : items.length = 0 <;>
              simp [displayLeaderboard, hi, pure, Except.pure] at h <;> subst h <;> simp
          | falsy => simp [displayLeaderboard, pure, Except.pure] at h; subst h; simp
          | lengthZero => simp [displayLeaderboard, pure, Except.pure] at h; subst h; simp
          | other => simp [displayLeaderboard, throw, throwThe, MonadExceptOf.throw] at h

theorem loadDetailedViewSettle_frame {ρ : Type} (time : ρ → Option Int) (r : FetchResult ρ)
    (s : State ρ) :
    ∃ s', loadDetailedViewSettle time r s = .ok s' ∧ s'.storage = s.storage ∧
      s'.requests = s.requests := by
  unfold loadDetailedViewSettle
  cases h : loadDetailedViewTry time r s with
  | error e => exact ⟨_, rfl, rfl, rfl⟩
  | ok s₁ =>
    refine ⟨s₁, rfl, ?_⟩
    unfold loadDetailedViewTry at h
    cases r with
    | rejected reason => simp [throw, throwThe, MonadExceptOf.throw] at h
    | response ok body =>
      cases ok with
      | false => simp [throw, throwThe, MonadExceptOf.throw] at h
      | true =>
        cases body with
        | none => simp [throw, throwThe, MonadExceptOf.throw] at h
        | some data =>
          cases data with
          | array items =>
            simp [pure, Except.pure] at h
            subst h
            simp [displayDetailedViewWithPagination_frame]
          | falsy => simp [throw, throwThe, MonadExceptOf.throw] at h
          | lengthZero => simp [throw, throwThe, MonadExceptOf.throw] at h
          | other => simp [throw, throwThe, MonadExceptOf.throw] at h

theorem loadDataStart_frame {ρ : Type} (s : State ρ) :
    (loadDataStart s).allDetailedData = s.allDetailedData ∧
    (loadDataStart s).currentPage = s.currentPage ∧
    (loadDataStart s).storage = s.storage := by
  unfold loadDataStart request
  split <;> simp

theorem step_storage {ρ : Type} (time : ρ → Option Int) (s : State ρ) (e : Event ρ) :
    (step time s e).storage = s.storage := by
  cases e with
  | themeClick theme textContent => simp [step, themeBtnClick, loadDataStart_frame]
  | viewClick view =>
    simp only [step, viewToggleClick, (loadDataStart_frame _).2.2]
    split <;> rfl
  | likeClick liked => simp [step, likeFilterClick, loadDataStart_frame]
  | prevClick =>
    simp only [step, prevPageClick]
    split
    · simp [displayDetailedViewWithPagination_frame]
    · rfl
  | nextClick =>
    simp only [step, nextPageClick]
    split
    · simp [displayDetailedViewWithPagination_frame]
    · rfl
  | leaderboardSettled r =>
    obtain ⟨s', h, -, -, hs, -⟩ := loadLeaderboardSettle_frame r s
    simp [step, h, settled, hs]
  | detailedSettled r =>
    obtain ⟨s', h, hs, -⟩ := loadDetailedViewSettle_frame time r s
    simp [step, h, settled, hs]

theorem run_storage {ρ : Type} (time : ρ → Option Int) (events : List (Event ρ)) (s : State ρ) :
    (run time s events).storage = s.storage := by
  induction events generalizing s with
  | nil => rfl
  | cons e es ih =>
    show (run time (step time s e) es).storage = s.storage
    rw [ih, step_storage]

theorem expectedUrl_summary {ρ : Type} (s : State ρ) (h : s.currentView = "summary") :
    expectedUrl s.currentView s.currentTheme s.currentLikedFilter = loadLeaderboardUrl s := by
  unfold expectedUrl loadLeaderboardUrl
  rw [if_pos h]
  cases s.currentTheme with
  | none => rfl
  | some theme => by_cases ht : theme = "" <;> simp [ht]

theorem expectedUrl_detailed {ρ : Type} (s : State ρ) (h : ¬ s.currentView = "summary") :
    expectedUrl s.currentView s.currentTheme s.currentLikedFilter = loadDetailedViewUrl s := by
  unfold expectedUrl loadDetailedViewUrl
  rw [if_neg h]
  by_cases hl : s.currentLikedFilter = ""
  · simp only [hl, if_true, ne_eq, not_true_eq_false, if_false]
    cases s.currentTheme with
    | none => rfl
    | some theme => by_cases ht : theme = "" <;> simp [ht]
  · simp [hl]

theorem slice_page {ρ : Type} (xs : List ρ) (k : Nat) :
    slice xs (((k : Int) + 1 - 1) * itemsPerPage)
      (min (((k : Int) + 1 - 1) * itemsPerPage + itemsPerPage) xs.length) =
      (xs.drop (k * 10)).take 10 := by
  have hstart : relativeIndex xs.length (((k : Int) + 1 - 1) * itemsPerPage) =
      min (k * 10) xs.length := by
    unfold relativeIndex itemsPerPage
    rw [if_neg (by omega)]
    congr 1
    omega
  have hstop : relativeIndex xs.length
      (min (((k : Int) + 1 - 1) * itemsPerPage + itemsPerPage) xs.length) =
      min (k * 10 + 10) xs.length := by
    unfold relativeIndex itemsPerPage
    rw [if_neg (by omega)]
    omega
  unfold slice
  simp only [hstart, hstop]
  by_cases h : xs.length ≤ k * 10
  · rw [List.drop_eq_nil_of_le (by omega : xs.length ≤ min (k * 10) xs.length),
      List.drop_eq_nil_of_le h]
    simp
  · rw [Nat.min_eq_left (by omega : k * 10 ≤ xs.length)]
    by_cases h2 : k * 10 + 10 ≤ xs.length
    · rw [Nat.min_eq_left h2]
      congr 1
      omega
    · rw [Nat.min_eq_right (by omega : xs.length ≤ k * 10 + 10)]
      rw [List.take_of_length_le (by rw [List.length_drop]),
        List.take_of_length_le (by rw [List.length_drop]; omega)]

theorem displayDetailedViewWithPagination_cards {ρ : Type} (s : State ρ) (k : Nat)
    (hdata : s.allDetailedData ≠ []) (hcur : s.currentPage = (k : Int) + 1) :
    (displayDetailedViewWithPagination s).leaderboardList.cards =
      (s.allDetailedData.drop (k * 10)).take 10 := by
  have hlen : ¬ s.allDetailedData.length = 0 := by
    intro h; exact hdata (List.length_eq_zero.mp h)
  unfold displayDetailedViewWithPagination
  rw [if_neg hlen]
  simp only [hcur, slice_page]
  unfold displayDetailedView
  split
  · rename_i h0
    rw [List.length_eq_zero.mp h0]
    rfl
  · rfl

theorem flatten_pages {ρ : Type} (xs : List ρ) (m : Nat) :
    ((List.range m).map fun k => (xs.drop (k * 10)).take 10).flatten = xs.take (m * 10) := by
  induction m with
  | zero => simp
  | succ m ih =>
    rw [List.range_succ, List.map_append, List.flatten_append, ih]
    simp only [List.map_cons, List.map_nil, List.flatten_cons, List.flatten_nil,
      List.append_nil]
    rw [show (m + 1) * 10 = m * 10 + 10 by ring, List.take_add]

theorem length_le_totalPages_mul (n : Nat) : n ≤ totalPages n * 10 := by
  simp only [totalPages, itemsPerPage]; omega

theorem sortInsert_perm {ρ : Type} (time : ρ → Option Int) (x : ρ) (ys : List ρ) :
    (sortInsert time x ys).Perm (x :: ys) := by
  induction ys with
  | nil => exact List.Perm.refl _
  | cons y ys ih =>
    unfold sortInsert
    split
    · exact List.Perm.refl _
    · exact (List.Perm.cons y ih).trans (List.Perm.swap x y ys)

theorem arraySort_perm {ρ : Type} (time : ρ → Option Int) (xs : List ρ) :
    (arraySort time xs).Perm xs := by
  induction xs with
  | nil => exact List.Perm.refl _
  | cons x xs ih =>
    unfold arraySort
    exact (sortInsert_perm time x _).trans (List.Perm.cons x ih)

theorem sortCompare_valid {ρ : Type} (time : ρ → Option Int) (a b : ρ) (ta tb : Int)
    (ha : time a = some ta) (hb : time b = some tb) : sortCompare time a b = tb - ta := by
  simp [sortCompare, compareFn, ha, hb]

theorem sortInsert_pairwise {ρ : Type} (time : ρ → Option Int) (x : ρ) (ys : List ρ)
    (hx : (time x).isSome = true) (hys : ∀ y ∈ ys, (time y).isSome = true)
    (hsorted : ys.Pairwise (NotOlder time)) :
    (sortInsert time x ys).Pairwise (NotOlder time) := by
  obtain ⟨tx, htx⟩ := Option.isSome_iff_exists.mp hx
  induction ys with
  | nil => simp [sortInsert]
  | cons y ys ih =>
    obtain ⟨ty, hty⟩ := Option.isSome_iff_exists.mp (hys y (List.mem_cons_self _ _))
    have hys' : ∀ z ∈ ys, (time z).isSome = true := fun z hz =>
      hys z (List.mem_cons_of_mem _ hz)
    rw [List.pairwise_cons] at hsorted
    unfold sortInsert
    rw [sortCompare_valid time x y tx ty htx hty]
    split
    · rename_i hle
      refine List.pairwise_cons.mpr ⟨?_, List.pairwise_cons.mpr hsorted⟩
      intro z hz
      rcases List.mem_cons.mp hz with rfl | hz
      · exact ⟨tx, ty, htx, hty, by omega⟩
      · obtain ⟨ty', tz, hty', htz, hle'⟩ := hsorted.1 z hz
        rw [hty] at hty'
        cases hty'
        exact ⟨tx, tz, htx, htz, by omega⟩
    · rename_i hgt
      refine List.pairwise_cons.mpr ⟨?_, ih hys' hsorted.2⟩
      intro z hz
      rcases List.mem_cons.mp ((sortInsert_perm time x ys).mem_iff.mp hz) with rfl | hz
      · exact ⟨ty, tx, hty, htx, by omega⟩
      · exact hsorted.1 z hz

theorem arraySort_pairwise {ρ : Type} (time : ρ → Option Int) (xs : List ρ)
    (hxs : ∀ x ∈ xs, (time x).isSome = true) :
    (arraySort time xs).Pairwise (NotOlder time) := by
  induction xs with
  | nil => simp [arraySort]
  | cons x xs ih =>
    unfold arraySort
    have hxs' : ∀ z ∈ xs, (time z).isSome = true := fun z hz =>
      hxs z (List.mem_cons_of_mem _ hz)
    exact sortInsert_pairwise time x _ (hxs x (List.mem_cons_self _ _))
      (fun y hy => hxs' y ((arraySort_perm time xs).mem_iff.mp hy)) (ih hxs')

theorem loadDetailedViewSettle_array {ρ : Type} (time : ρ → Option Int) (items : List ρ)
    (s : State ρ) :
    ∃ s', loadDetailedViewSettle time (.response true (some (.array items))) s = .ok s' ∧
      s'.allDetailedData = arraySort time items ∧ s'.currentPage = 1 := by
  refine ⟨displayDetailedViewWithPagination
    { s with allDetailedData := arraySort time items, currentPage := 1 }, rfl, ?_, ?_⟩
  · rw [(displayDetailedViewWithPagination_frame _).1]
  · rw [(displayDetailedViewWithPagination_frame _).2.1]

theorem loadDetailedViewSettle_cases {ρ : Type} (time : ρ → Option Int) (r : FetchResult ρ)
    (s : State ρ) :
    ∃ s', loadDetailedViewSettle time r s = .ok s' ∧
      ((s'.allDetailedData = s.allDetailedData ∧ s'.currentPage = s.currentPage) ∨
        s'.currentPage = 1) := by
  cases r with
  | rejected reason => exact ⟨_, rfl, Or.inl ⟨rfl, rfl⟩⟩
  | response ok body =>
    cases ok with
    | false => exact ⟨_, rfl, Or.inl ⟨rfl, rfl⟩⟩
    | true =>
      cases body with
      | none => exact ⟨_, rfl, Or.inl ⟨rfl, rfl⟩⟩
      | some data =>
        cases data with
        | array items =>
          obtain ⟨s', h, -, hp⟩ := loadDetailedViewSettle_array time items s
          exact ⟨s', h, Or.inr hp⟩
        | falsy => exact ⟨_, rfl, Or.inl ⟨rfl, rfl⟩⟩
        | lengthZero => exact ⟨_, rfl, Or.inl ⟨rfl, rfl⟩⟩
        | other => exact ⟨_, rfl, Or.inl ⟨rfl, rfl⟩⟩

theorem pageInRange_of_one {ρ : Type} (s : State ρ) (h : s.currentPage = 1) :
    PageInRange s := by
  unfold PageInRange
  rw [h]
  omega

theorem step_pageInRange {ρ : Type} (time : ρ → Option Int) (s : State ρ) (e : Event ρ)
    (h : PageInRange s) : PageInRange (step time s e) := by
  cases e with
  | themeClick theme textContent =>
    apply pageInRange_of_one
    simp [step, themeBtnClick, loadDataStart_frame]
  | viewClick view =>
    unfold PageInRange at *
    simp only [step, viewToggleClick, (loadDataStart_frame _).1, (loadDataStart_frame _).2.1]
    split <;> exact h
  | likeClick liked =>
    apply pageInRange_of_one
    simp [step, likeFilterClick, loadDataStart_frame]
  | prevClick =>
    unfold PageInRange at *
    simp only [step, prevPageClick]
    split
    · rw [(displayDetailedViewWithPagination_frame _).1,
        (displayDetailedViewWithPagination_frame _).2.1]
      simp only
      omega
    · exact h
  | nextClick =>
    unfold PageInRange at *
    simp only [step, nextPageClick]
    split
    · rw [(displayDetailedViewWithPagination_frame _).1,
        (displayDetailedViewWithPagination_frame _).2.1]
      simp only
      omega
    · exact h
  | leaderboardSettled r =>
    obtain ⟨s', hs', hd, hp, -, -⟩ := loadLeaderboardSettle_frame r s
    unfold PageInRange at *
    simp only [step, hs', settled, hd, hp]
    exact h
  | detailedSettled r =>
    obtain ⟨s', hs', hcase⟩ := loadDetailedViewSettle_cases time r s
    simp only [step, hs', settled]
    rcases hcase with ⟨hd, hp⟩ | hp
    · unfold PageInRange at *
      rw [hd, hp]
      exact h
    · exact pageInRange_of_one s' hp

theorem run_pageInRange {ρ : Type} (time : ρ → Option Int) (events : List (Event ρ))
    (s : State ρ) (h : PageInRange s) : PageInRange (run time s events) := by
  induction events generalizing s with
  | nil => exact h
  | cons e es ih => exact ih (step time s e) (step_pageInRange time s e h)

theorem onLoad_start {ρ : Type} (page : State ρ) :
    (onLoad page).currentPage = 1 ∧ (onLoad page).allDetailedData = [] := by
  simp [onLoad, loadDataStart_frame]

theorem domContentLoaded_fields (p : ControlsPage) :
    (domContentLoaded p).storage = p.storage ∧
    (domContentLoaded p).themeToggle = p.themeToggle ∧
    (domContentLoaded p).musicToggle = p.musicToggle ∧
    (domContentLoaded p).bodyDark =
      (p.bodyDark || decide (p.storage.getItem "darkMode" = some "true")) ∧
    (domContentLoaded p).themeIcon =
      p.themeIcon.map (fun _ => themeIconClass (decide (p.storage.getItem "darkMode" = some "true"))) ∧
    (domContentLoaded p).musicEnabled =
      (!decide (p.storage.getItem "musicEnabled" = some "false")) ∧
    (domContentLoaded p).musicIcon =
      p.musicIcon.map (fun _ =>
        musicIconClass (!decide (p.storage.getItem "musicEnabled" = some "false"))) := by
  obtain ⟨st, bd, tt, ti, bm, mt, mi, me, up⟩ := p
  cases ti <;> cases mi <;> cases bm <;>
    by_cases h : st.getItem "darkMode" = some "true" <;>
    simp [domContentLoaded, applyMusicState, h]

theorem themeToggleClick_fields (s : ControlsPage) :
    (themeToggleClick s).bodyDark = (!s.bodyDark) ∧
    (themeToggleClick s).storage = s.storage.setItem "darkMode" (jsString (!s.bodyDark)) ∧
    (themeToggleClick s).themeIcon = s.themeIcon.map (fun _ => themeIconClass (!s.bodyDark)) ∧
    (themeToggleClick s).themeToggle = s.themeToggle ∧
    (themeToggleClick s).musicToggle = s.musicToggle ∧
    (themeToggleClick s).musicEnabled = s.musicEnabled ∧
    (themeToggleClick s).musicIcon = s.musicIcon := by
  obtain ⟨st, bd, tt, ti, bm, mt, mi, me, up⟩ := s
  cases ti <;> simp [themeToggleClick]

theorem musicToggleClick_fields (s : ControlsPage) :
    (musicToggleClick s).musicEnabled = (!s.musicEnabled) ∧
    (musicToggleClick s).storage = s.storage.setItem "musicEnabled" (jsString (!s.musicEnabled)) ∧
    (musicToggleClick s).musicIcon = s.musicIcon.map (fun _ => musicIconClass (!s.musicEnabled)) ∧
    (musicToggleClick s).themeToggle = s.themeToggle ∧
    (musicToggleClick s).musicToggle = s.musicToggle ∧
    (musicToggleClick s).bodyDark = s.bodyDark ∧
    (musicToggleClick s).themeIcon = s.themeIcon := by
  obtain ⟨st, bd, tt, ti, bm, mt, mi, me, up⟩ := s
  cases mi <;> cases bm <;> simp [musicToggleClick, applyMusicState]

theorem handle_gesture_fields (s : ControlsPage) :
    (s.handle .gesture).storage = s.storage ∧
    (s.handle .gesture).bodyDark = s.bodyDark ∧
    (s.handle .gesture).themeIcon = s.themeIcon ∧
    (s.handle .gesture).themeToggle = s.themeToggle ∧
    (s.handle .gesture).musicToggle = s.musicToggle ∧
    (s.handle .gesture).musicEnabled = s.musicEnabled ∧
    (s.handle .gesture).musicIcon = s.musicIcon := by
  obtain ⟨st, bd, tt, ti, bm, mt, mi, me, up⟩ := s
  cases up <;> simp [ControlsPage.handle, unlock]

theorem mirrored_domContentLoaded (p : ControlsPage) : Mirrored p (domContentLoaded p) := by
  obtain ⟨hst, htt, hmt, hbd, hti, hme, hmi⟩ := domContentLoaded_fields p
  refine ⟨htt, hmt, ?_, ?_, ?_, ?_⟩
  · rw [hme, hst]
  · rw [hmi, hme]
  · rw [hti]; cases p.themeIcon <;> rfl
  · intro hdm
    unfold DarkMirrored at hdm
    rw [hst] at hdm
    rw [hti, hdm]

theorem darkMirrored_domContentLoaded (p : ControlsPage) :
    DarkMirrored (domContentLoaded p) ↔
      (p.bodyDark = false ∨ p.storage.getItem "darkMode" = some "true") := by
  obtain ⟨hst, -, -, hbd, -, -, -⟩ := domContentLoaded_fields p
  unfold DarkMirrored
  rw [hbd, hst]
  by_cases h : p.storage.getItem "darkMode" = some "true" <;> cases p.bodyDark <;> simp [h]

theorem handle_themeToggle (s : ControlsPage) (e : ControlsEvent) :
    (s.handle e).themeToggle = s.themeToggle := by
  cases e with
  | themeClick =>
    show (if s.themeToggle = true then themeToggleClick s else s).themeToggle = s.themeToggle
    split
    · exact (themeToggleClick_fields s).2.2.2.1
    · rfl
  | musicClick =>
    show (if s.musicToggle = true then musicToggleClick s else s).themeToggle = s.themeToggle
    split
    · exact (musicToggleClick_fields s).2.2.2.1
    · rfl
  | gesture => exact (handle_gesture_fields s).2.2.2.1

theorem darkMirrored_handle (s : ControlsPage) (e : ControlsEvent) :
    DarkMirrored (s.handle e) ↔
      (DarkMirrored s ∨ (s.themeToggle = true ∧ e = .themeClick)) := by
  cases e with
  | themeClick =>
    by_cases ht : s.themeToggle = true
    · simp only [ControlsPage.handle, ht, if_true]
      obtain ⟨hbd, hst, -⟩ := themeToggleClick_fields s
      have : DarkMirrored (themeToggleClick s) := by
        unfold DarkMirrored
        rw [hbd, hst]
        cases s.bodyDark <;> simp [Storage.getItem, Storage.setItem, jsString]
      simp [this]
    · simp only [ControlsPage.handle, ht]
      simp
  | musicClick =>
    by_cases ht : s.musicToggle = true
    · simp only [ControlsPage.handle, ht, if_true]
      obtain ⟨-, hst, -, -, -, hbd, -⟩ := musicToggleClick_fields s
      unfold DarkMirrored
      rw [hbd, hst]
      simp [Storage.getItem, Storage.setItem]
    · simp only [ControlsPage.handle, ht]
      simp
  | gesture =>
    obtain ⟨hst, hbd, -⟩ := handle_gesture_fields s
    unfold DarkMirrored
    rw [hbd, hst]
    simp

theorem darkMirrored_run (events : List ControlsEvent) (s : ControlsPage) :
    DarkMirrored (s.run events) ↔
      (DarkMirrored s ∨ (s.themeToggle = true ∧ ControlsEvent.themeClick ∈ events)) := by
  induction events generalizing s with
  | nil => simp [ControlsPage.run]
  | cons e es ih =>
    have hrun : s.run (e :: es) = (s.handle e).run es := rfl
    rw [hrun, ih (s.handle e), darkMirrored_handle, handle_themeToggle, List.mem_cons]
    constructor
    · rintro ((h | ⟨ht, he⟩) | ⟨ht, hm⟩)
      · exact Or.inl h
      · exact Or.inr ⟨ht, Or.inl he.symm⟩
      · exact Or.inr ⟨ht, Or.inr hm⟩
    · rintro (h | ⟨ht, he | hm⟩)
      · exact Or.inl (Or.inl h)
      · exact Or.inl (Or.inr ⟨ht, he.symm⟩)
      · exact Or.inr ⟨ht, hm⟩

theorem mirrored_handle (p s : ControlsPage) (e : ControlsEvent) (h : Mirrored p s) :
    Mirrored p (s.handle e) := by
  obtain ⟨h1, h2, h3, h4, h5, h6⟩ := h
  cases e with
  | themeClick =>
    by_cases ht : s.themeToggle = true
    · simp only [ControlsPage.handle, ht, if_true]
      obtain ⟨hbd, hst, hti, htt, hmt, hme, hmi⟩ := themeToggleClick_fields s
      refine ⟨by rw [htt, h1], by rw [hmt, h2], ?_, ?_, ?_, ?_⟩
      · rw [hme, hst, h3]
        simp [Storage.getItem, Storage.setItem]
      · rw [hmi, hme, h4]
      · rw [hti, ← h5]; cases s.themeIcon <;> rfl
      · intro _
        rw [hbd, hti]
        revert h5
        cases s.themeIcon <;> cases p.themeIcon <;> simp
    · simp only [ControlsPage.handle, ht]
      exact ⟨h1, h2, h3, h4, h5, h6⟩
  | musicClick =>
    by_cases ht : s.musicToggle = true
    · have hdm := darkMirrored_handle s .musicClick
      simp only [ControlsPage.handle, ht, if_true] at hdm ⊢
      obtain ⟨hme, hst, hmi, htt, hmt, hbd, hti⟩ := musicToggleClick_fields s
      refine ⟨by rw [htt, h1], by rw [hmt, h2], ?_, ?_, ?_, ?_⟩
      · rw [hme, hst]
        cases s.musicEnabled <;> simp [Storage.getItem, Storage.setItem, jsString]
      · rw [hmi, hme, h4]
        cases p.musicIcon <;> rfl
      · rw [hti, h5]
      · intro hd
        rw [hbd, hti]
        exact h6 (by simpa using hdm.mp hd)
    · simp only [ControlsPage.handle, ht]
      exact ⟨h1, h2, h3, h4, h5, h6⟩
  | gesture =>
    have hdm := darkMirrored_handle s .gesture
    obtain ⟨hst, hbd, hti, htt, hmt, hme, hmi⟩ := handle_gesture_fields s
    refine ⟨by rw [htt, h1], by rw [hmt, h2], ?_, ?_, ?_, ?_⟩
    · rw [hme, hst, h3]
    · rw [hmi, hme, h4]
    · rw [hti, h5]
    · intro hd
      rw [hbd, hti]
      exact h6 (by simpa using hdm.mp hd)

theorem mirrored_run (p : ControlsPage) (events : List ControlsEvent) (s : ControlsPage)
    (h : Mirrored p s) : Mirrored p (s.run events) := by
  induction events generalizing s with
  | nil => exact h
  | cons e es ih => exact ih (s.handle e) (mirrored_handle p s e h)

theorem two_clicks_fields (s : ControlsPage) (ht : s.themeToggle = true) :
    (s.run [.themeClick, .themeClick]).bodyDark = s.bodyDark ∧
    (s.run [.themeClick, .themeClick]).storage.getItem "darkMode" =
      some (jsString s.bodyDark) ∧
    (s.run [.themeClick, .themeClick]).themeIcon =
      s.themeIcon.map (fun _ => themeIconClass s.bodyDark) := by
  obtain ⟨st, bd, tt, ti, bm, mt, mi, me, up⟩ := s
  simp only at ht
  subst ht
  cases ti <;>
    simp [ControlsPage.run, ControlsPage.handle, themeToggleClick, Storage.getItem,
      Storage.setItem]

/-! ## Properties -/

/-- C7: after the top-level script of leaderboard.js, and after any events
that follow it, the keys `gameState`, `resultData` and `nextQuestionData` are
absent from storage and every other key, in particular `darkMode` and
`musicEnabled`, has the value it had before the script ran. -/
theorem onLoad_clears_exactly_three_keys {ρ : Type} (time : ρ → Option Int) (page : State ρ)
    (events : List (Event ρ)) :
    (∀ key : String,
      (run time (onLoad page) events).storage.getItem key =
        if key = "gameState" ∨ key = "resultData" ∨ key = "nextQuestionData" then none
        else page.storage.getItem key) ∧
    (run time (onLoad page) events).storage.getItem "darkMode" =
      page.storage.getItem "darkMode" ∧
    (run time (onLoad page) events).storage.getItem "musicEnabled" =
      page.storage.getItem "musicEnabled" := by
  have key_eq : ∀ key : String,
      (run time (onLoad page) events).storage.getItem key =
        if key = "gameState" ∨ key = "resultData" ∨ key = "nextQuestionData" then none
        else page.storage.getItem key := by
    intro key
    rw [run_storage]
    simp only [onLoad, Storage.getItem, Storage.removeItem, (loadDataStart_frame _).2.2]
    by_cases h1 : key = "nextQuestionData"
    · simp [h1]
    · by_cases h2 : key = "resultData"
      · simp [h2]
      · by_cases h3 : key = "gameState"
        · simp [h3]
        · simp [h1, h2, h3]
  refine ⟨key_eq, ?_, ?_⟩
  · rw [key_eq]; simp
  · rw [key_eq]; simp

/-- C8: `loadData` issues exactly one request, and its URL is the function
`expectedUrl` of `currentView`, `currentTheme` and `currentLikedFilter`:
`/leaderboard[?theme=T]` in summary view; otherwise
`/responses/feedback?liked=B` when the like filter `B` is non-empty, whatever
the theme, and `/leaderboard/details[?theme=T]` when it is empty. The
synchronous part `loadDataStart` issues the same request. -/
theorem loadData_requests_expectedUrl {ρ : Type} (time : ρ → Option Int)
    (fetch : String → FetchResult ρ) (s : State ρ) :
    (∃ s', loadData time fetch s = .ok s' ∧
      s'.requests =
        s.requests ++ [expectedUrl s.currentView s.currentTheme s.currentLikedFilter]) ∧
    (loadDataStart s).requests =
      s.requests ++ [expectedUrl s.currentView s.currentTheme s.currentLikedFilter] := by
  by_cases h : s.currentView = "summary"
  · rw [expectedUrl_summary s h]
    constructor
    · obtain ⟨s', hs', -, -, -, hr⟩ :=
        loadLeaderboardSettle_frame (fetch (loadLeaderboardUrl s))
          (request (loadLeaderboardUrl s) s)
      exact ⟨s', by simp [loadData, h, loadLeaderboard, hs'], by rw [hr]; rfl⟩
    · simp [loadDataStart, h, request]
  · rw [expectedUrl_detailed s h]
    constructor
    · obtain ⟨s', hs', -, hr⟩ :=
        loadDetailedViewSettle_frame time (fetch (loadDetailedViewUrl s))
          (request (loadDetailedViewUrl s) s)
      exact ⟨s', by simp [loadData, h, loadDetailedView, hs'], by rw [hr]; rfl⟩
    · simp [loadDataStart, h, request]

/-- C6: when the fetch of `loadLeaderboard` (resp. `loadDetailedView`) fails,
by a network error or a non-OK status, the function completes normally, the
content of `#leaderboard-list` is the failure placeholder with the text
"Failed to load leaderboard" (resp. "Failed to load detailed view"), and
`allDetailedData` and `currentPage` are unchanged. -/
theorem failed_fetch_is_caught {ρ : Type} (time : ρ → Option Int)
    (fetch : String → FetchResult ρ) (s : State ρ) :
    ((fetch (loadLeaderboardUrl s)).failed = true →
      ∃ s', loadLeaderboard fetch s = .ok s' ∧
        s'.leaderboardList =
          .noData "fas fa-exclamation-circle fa-3x text-danger mb-3"
            "Failed to load leaderboard" ∧
        s'.allDetailedData = s.allDetailedData ∧ s'.currentPage = s.currentPage) ∧
    ((fetch (loadDetailedViewUrl s)).failed = true →
      ∃ s', loadDetailedView time fetch s = .ok s' ∧
        s'.leaderboardList =
          .noData "fas fa-exclamation-circle fa-3x text-danger mb-3"
            "Failed to load detailed view" ∧
        s'.allDetailedData = s.allDetailedData ∧ s'.currentPage = s.currentPage) := by
  constructor
  · intro h
    show ∃ s', loadLeaderboardSettle (fetch (loadLeaderboardUrl s))
        (request (loadLeaderboardUrl s) s) = .ok s' ∧ _
    cases hr : fetch (loadLeaderboardUrl s) with
    | rejected reason =>
      exact ⟨_, rfl, rfl, rfl, rfl⟩
    | response ok body =>
      rw [hr] at h
      cases ok with
      | false => exact ⟨_, rfl, rfl, rfl, rfl⟩
      | true => simp [FetchResult.failed] at h
  · intro h
    show ∃ s', loadDetailedViewSettle time (fetch (loadDetailedViewUrl s))
        (request (loadDetailedViewUrl s) s) = .ok s' ∧ _
    cases hr : fetch (loadDetailedViewUrl s) with
    | rejected reason =>
      exact ⟨_, rfl, rfl, rfl, rfl⟩
    | response ok body =>
      rw [hr] at h
      cases ok with
      | false => exact ⟨_, rfl, rfl, rfl, rfl⟩
      | true => simp [FetchResult.failed] at h

theorem failed_fetch_is_caught_witness :
    (FetchResult.rejected "NetworkError" : FetchResult Nat).failed = true ∧
    (∃ s', loadLeaderboard (fun _ => FetchResult.rejected "NetworkError") (onLoad (blankPage Nat))
        = .ok s' ∧
      s'.leaderboardList =
        .noData "fas fa-exclamation-circle fa-3x text-danger mb-3"
          "Failed to load leaderboard" ∧
      s'.allDetailedData = [] ∧ s'.currentPage = 1) ∧
    (∃ s', loadDetailedView (fun n => some (Int.ofNat n))
        (fun _ => FetchResult.response false none) (onLoad (blankPage Nat)) = .ok s' ∧
      s'.leaderboardList =
        .noData "fas fa-exclamation-circle fa-3x text-danger mb-3"
          "Failed to load detailed view" ∧
      s'.allDetailedData = [] ∧ s'.currentPage = 1) :=
  ⟨rfl,
   (failed_fetch_is_caught (fun n => some (Int.ofNat n))
      (fun _ => FetchResult.rejected "NetworkError") (onLoad (blankPage Nat))).1 rfl,
   (failed_fetch_is_caught (fun n => some (Int.ofNat n))
      (fun _ => FetchResult.response false none) (onLoad (blankPage Nat))).2 rfl⟩

/-- C10: for non-empty `allDetailedData` and `currentPage ≥ 1`, after
`displayDetailedViewWithPagination` the prev button is disabled exactly when a
prev click leaves `currentPage` unchanged, the next button is disabled exactly
when a next click leaves `currentPage` unchanged, an enabled prev click
decrements `currentPage` by one and an enabled next click increments it by
one. -/
theorem disabled_flags_agree_with_handlers {ρ : Type} (s : State ρ)
    (hdata : s.allDetailedData ≠ []) (hpage : 1 ≤ s.currentPage) :
    ((displayDetailedViewWithPagination s).prevDisabled = true ↔
      (prevPageClick (displayDetailedViewWithPagination s)).currentPage =
        (displayDetailedViewWithPagination s).currentPage) ∧
    ((displayDetailedViewWithPagination s).nextDisabled = true ↔
      (nextPageClick (displayDetailedViewWithPagination s)).currentPage =
        (displayDetailedViewWithPagination s).currentPage) ∧
    ((displayDetailedViewWithPagination s).prevDisabled = false →
      (prevPageClick (displayDetailedViewWithPagination s)).currentPage =
        (displayDetailedViewWithPagination s).currentPage - 1) ∧
    ((displayDetailedViewWithPagination s).nextDisabled = false →
      (nextPageClick (displayDetailedViewWithPagination s)).currentPage =
        (displayDetailedViewWithPagination s).currentPage + 1) := by
  have hlen : ¬ s.allDetailedData.length = 0 := by
    intro h; exact hdata (List.length_eq_zero.mp h)
  obtain ⟨hd, hp, -, -⟩ := displayDetailedViewWithPagination_frame s
  have hprev : (displayDetailedViewWithPagination s).prevDisabled = decide (s.currentPage = 1) := by
    simp [displayDetailedViewWithPagination, hlen, displayDetailedView_frame]
  have hnext : (displayDetailedViewWithPagination s).nextDisabled =
      decide (s.currentPage ≥ (totalPages s.allDetailedData.length : Int)) := by
    simp [displayDetailedViewWithPagination, hlen, displayDetailedView_frame]
  generalize displayDetailedViewWithPagination s = d at hd hp hprev hnext
  have hpc : (prevPageClick d).currentPage = if d.currentPage > 1 then d.currentPage - 1
      else d.currentPage := by
    unfold prevPageClick
    split
    · rw [(displayDetailedViewWithPagination_frame _).2.1]
    · rfl
  have hnc : (nextPageClick d).currentPage =
      if d.currentPage < (totalPages d.allDetailedData.length : Int) then d.currentPage + 1
      else d.currentPage := by
    unfold nextPageClick
    dsimp only
    split
    · rw [(displayDetailedViewWithPagination_frame _).2.1]
    · rfl
  rw [hpc, hnc, hprev, hnext, hd, hp]
  refine ⟨?_, ?_, ?_, ?_⟩
  · simp only [decide_eq_true_eq]
    split <;> omega
  · simp only [decide_eq_true_eq]
    split <;> omega
  · simp only [decide_eq_false_iff_not]
    intro h
    split <;> omega
  · simp only [decide_eq_false_iff_not]
    intro h
    split <;> omega

theorem disabled_flags_agree_with_handlers_witness :
    ({ blankPage Nat with allDetailedData := List.range 25, currentPage := 2 } :
        State Nat).allDetailedData ≠ [] ∧
    (displayDetailedViewWithPagination
      ({ blankPage Nat with allDetailedData := List.range 25, currentPage := 2 } :
        State Nat)).prevDisabled = false ∧
    (prevPageClick (displayDetailedViewWithPagination
      ({ blankPage Nat with allDetailedData := List.range 25, currentPage := 2 } :
        State Nat))).currentPage = 1 :=
  ⟨by decide, by decide,
   by
    have h := (disabled_flags_agree_with_handlers
      ({ blankPage Nat with allDetailedData := List.range 25, currentPage := 2 } : State Nat)
      (by decide) (by decide)).2.2.1 (by decide)
    rw [h, (displayDetailedViewWithPagination_frame _).2.1]
    rfl⟩

/-- C2: for non-empty `allDetailedData` of length `n` and
`currentPage = p` with `1 ≤ p ≤ ⌈n / 10⌉`, `displayDetailedViewWithPagination`
renders the detail cards of exactly the items at the indices from
`(p - 1) * 10` up to `min (p * 10) n` (exclusive); these are 10 items when
`p < ⌈n / 10⌉` and between 1 and 10 items in any case, and the page-start,
page-end and total-items texts are `(p - 1) * 10 + 1`, `min (p * 10) n` and
`n`. -/
theorem page_slice_boundaries {ρ : Type} (s : State ρ) (p : Nat)
    (hdata : s.allDetailedData ≠ []) (hcur : s.currentPage = p) (hp1 : 1 ≤ p)
    (hp2 : p ≤ totalPages s.allDetailedData.length) :
    ∃ pageData : List ρ,
      (displayDetailedViewWithPagination s).leaderboardList = .detailCards pageData ∧
      pageData.length = min (p * 10) s.allDetailedData.length - (p - 1) * 10 ∧
      (∀ i, i < pageData.length → pageData[i]? = s.allDetailedData[(p - 1) * 10 + i]?) ∧
      (p < totalPages s.allDetailedData.length → pageData.length = 10) ∧
      1 ≤ pageData.length ∧ pageData.length ≤ 10 ∧
      (displayDetailedViewWithPagination s).pageStart = toString ((p - 1) * 10 + 1) ∧
      (displayDetailedViewWithPagination s).pageEnd =
        toString (min (p * 10) s.allDetailedData.length) ∧
      (displayDetailedViewWithPagination s).totalItems = toString s.allDetailedData.length := by
  obtain ⟨k, rfl⟩ : ∃ k, p = k + 1 := ⟨p - 1, by omega⟩
  have hcur' : s.currentPage = (k : Int) + 1 := by rw [hcur]; push_cast; rfl
  have hlen : ¬ s.allDetailedData.length = 0 := by
    intro h; exact hdata (List.length_eq_zero.mp h)
  have hk : k * 10 < s.allDetailedData.length := by
    simp only [totalPages, itemsPerPage] at hp2; omega
  have hpl : ((s.allDetailedData.drop (k * 10)).take 10).length =
      min ((k + 1) * 10) s.allDetailedData.length - (k + 1 - 1) * 10 := by
    rw [List.length_take, List.length_drop]; omega
  refine ⟨(s.allDetailedData.drop (k * 10)).take 10, ?_, hpl, ?_, ?_, ?_, ?_, ?_, ?_, ?_⟩
  · unfold displayDetailedViewWithPagination
    rw [if_neg hlen]
    simp only [hcur', slice_page]
    unfold displayDetailedView
    rw [if_neg (by rw [hpl]; omega)]
  · intro i hi
    rw [List.length_take] at hi
    rw [List.getElem?_take, if_pos (by omega), List.getElem?_drop]
    congr 1
  · intro hlt
    rw [hpl]
    simp only [totalPages, itemsPerPage] at hlt
    omega
  · rw [hpl]; omega
  · rw [hpl]; omega
  · have h : (displayDetailedViewWithPagination s).pageStart =
        toString ((s.currentPage - 1) * (itemsPerPage : Int) + 1) := by
      unfold displayDetailedViewWithPagination
      rw [if_neg hlen]
    rw [h, hcur', show ((k : Int) + 1 - 1) * (itemsPerPage : Int) + 1
      = (((k + 1 - 1) * 10 + 1 : Nat) : Int) by simp [itemsPerPage]]
    rfl
  · have h : (displayDetailedViewWithPagination s).pageEnd =
        toString (min ((s.currentPage - 1) * (itemsPerPage : Int) + itemsPerPage)
          (s.allDetailedData.length : Int)) := by
      unfold displayDetailedViewWithPagination
      rw [if_neg hlen]
    rw [h, hcur', show min (((k : Int) + 1 - 1) * (itemsPerPage : Int) + itemsPerPage)
        (s.allDetailedData.length : Int)
      = ((min ((k + 1) * 10) s.allDetailedData.length : Nat) : Int) by
        simp only [itemsPerPage]; push_cast; congr 1; ring]
    rfl
  · unfold displayDetailedViewWithPagination
    rw [if_neg hlen]

theorem page_slice_boundaries_witness :
    ∃ pageData : List Nat,
      (displayDetailedViewWithPagination
        ({ blankPage Nat with allDetailedData := List.range 25, currentPage := 3 } :
          State Nat)).leaderboardList = .detailCards pageData ∧
      pageData.length = 5 ∧ pageData = [20, 21, 22, 23, 24] :=
  let s : State Nat := { blankPage Nat with allDetailedData := List.range 25, currentPage := 3 }
  match page_slice_boundaries s 3 (by decide) rfl (by decide) (by decide) with
  | ⟨pageData, h, hl, _⟩ => ⟨pageData, h, hl, by
      have h2 : (displayDetailedViewWithPagination s).leaderboardList =
          .detailCards [20, 21, 22, 23, 24] := by decide
      rw [h2] at h
      injection h with h
      exact h.symm⟩

/-- C9: for non-empty `allDetailedData` of length `n`, the lists of records
rendered by `displayDetailedViewWithPagination` for `currentPage = 1, 2, …,
⌈n / 10⌉`, concatenated in that order, are `allDetailedData`. -/
theorem pages_partition_data {ρ : Type} (s : State ρ) (hdata : s.allDetailedData ≠ []) :
    ((List.range (totalPages s.allDetailedData.length)).map fun (k : Nat) =>
      (displayDetailedViewWithPagination
        { s with currentPage := (k : Int) + 1 }).leaderboardList.cards).flatten =
      s.allDetailedData := by
  have h : ∀ k : Nat, (displayDetailedViewWithPagination
        { s with currentPage := (k : Int) + 1 }).leaderboardList.cards =
      (s.allDetailedData.drop (k * 10)).take 10 := fun k =>
    displayDetailedViewWithPagination_cards { s with currentPage := (k : Int) + 1 } k hdata rfl
  rw [List.map_congr_left fun k _ => h k, flatten_pages,
    List.take_of_length_le (length_le_totalPages_mul _)]

theorem pages_partition_data_witness :
    ((List.range 3).map fun (k : Nat) =>
      (displayDetailedViewWithPagination
        ({ blankPage Nat with allDetailedData := List.range 25, currentPage := (k : Int) + 1 } :
          State Nat)).leaderboardList.cards).flatten = List.range 25 :=
  pages_partition_data
    ({ blankPage Nat with allDetailedData := List.range 25 } : State Nat) (by decide)

/-- C3: after a `loadDetailedView` whose fetch succeeds with a JSON array,
`allDetailedData` is a permutation of the fetched records, `currentPage` is 1,
and, when every `created_at` of the fetched array is a valid date, each record
of `allDetailedData` is not older than the record that follows it. -/
theorem loadDetailedView_sorts_by_date_descending {ρ : Type} (time : ρ → Option Int)
    (fetch : String → FetchResult ρ) (s : State ρ) (items : List ρ)
    (hfetch : fetch (loadDetailedViewUrl s) = .response true (some (.array items))) :
    ∃ s', loadDetailedView time fetch s = .ok s' ∧
      s'.allDetailedData.Perm items ∧
      s'.currentPage = 1 ∧
      ((∀ r ∈ items, (time r).isSome = true) →
        List.Chain' (fun a b => ∃ ta tb, time a = some ta ∧ time b = some tb ∧ ta ≥ tb)
          s'.allDetailedData) := by
  obtain ⟨s', hs', hd, hp⟩ :=
    loadDetailedViewSettle_array time items (request (loadDetailedViewUrl s) s)
  refine ⟨s', ?_, ?_, hp, ?_⟩
  · show loadDetailedViewSettle time (fetch (loadDetailedViewUrl s)) _ = _
    rw [hfetch, hs']
  · rw [hd]
    exact arraySort_perm time items
  · intro hvalid
    rw [hd]
    exact (arraySort_pairwise time items hvalid).chain'

theorem loadDetailedView_sorts_by_date_descending_witness :
    ∃ s', loadDetailedView (fun t : Int => some t)
        (fun _ => .response true (some (.array [3, 1, 2]))) (onLoad (blankPage Int)) = .ok s' ∧
      s'.allDetailedData.Perm [3, 1, 2] ∧
      s'.currentPage = 1 ∧
      ((∀ r ∈ [(3 : Int), 1, 2], ((fun t : Int => some t) r).isSome = true) →
        List.Chain'
          (fun a b => ∃ ta tb, (fun t : Int => some t) a = some ta ∧
            (fun t : Int => some t) b = some tb ∧ ta ≥ tb)
          s'.allDetailedData) :=
  loadDetailedView_sorts_by_date_descending (fun t : Int => some t)
    (fun _ => .response true (some (.array [3, 1, 2]))) (onLoad (blankPage Int)) [3, 1, 2] rfl

/-- C1, as stated, fails in the initial state: `currentPage` is 1 while
`allDetailedData` is empty, so `⌈0 / 10⌉ = 0 < 1`. -/
theorem page_bound_fails_initially :
    ¬ (1 ≤ (run (fun t : Int => some t) (onLoad (blankPage Int)) []).currentPage ∧
      (run (fun t : Int => some t) (onLoad (blankPage Int)) []).currentPage ≤
        (totalPages
          (run (fun t : Int => some t) (onLoad (blankPage Int)) []).allDetailedData.length :
          Int)) := by
  decide

/-- C1, amended: in every state reached from the state the script leaves by
any sequence of clicks and settled loads, `1 ≤ currentPage`; `currentPage ≤
⌈n / 10⌉` whenever `allDetailedData` is non-empty; and `currentPage = 1`
whenever it is empty. -/
theorem page_stays_in_range {ρ : Type} (time : ρ → Option Int) (page : State ρ)
    (events : List (Event ρ)) :
    1 ≤ (run time (onLoad page) events).currentPage ∧
    ((run time (onLoad page) events).allDetailedData ≠ [] →
      (run time (onLoad page) events).currentPage ≤
        (totalPages (run time (onLoad page) events).allDetailedData.length : Int)) ∧
    ((run time (onLoad page) events).allDetailedData = [] →
      (run time (onLoad page) events).currentPage = 1) := by
  have h := run_pageInRange time events (onLoad page)
    (pageInRange_of_one _ (onLoad_start page).1)
  generalize run time (onLoad page) events = s at h
  unfold PageInRange at h
  refine ⟨h.1, ?_, ?_⟩
  · intro hne
    have hpos : 0 < s.allDetailedData.length := List.length_pos.mpr hne
    have : 1 ≤ totalPages s.allDetailedData.length := by
      simp only [totalPages, itemsPerPage]; omega
    omega
  · intro he
    rw [he] at h
    have : totalPages ([] : List ρ).length = 0 := by simp [totalPages, itemsPerPage]
    rw [this] at h
    omega

theorem page_stays_in_range_witness :
    (run (fun t : Int => some t) (onLoad (blankPage Int))
      [.viewClick "detailed", .detailedSettled (.response true (some (.array (List.replicate 25 0)))),
        .nextClick, .nextClick, .nextClick, .nextClick]).currentPage ≤
      (totalPages (run (fun t : Int => some t) (onLoad (blankPage Int))
        [.viewClick "detailed",
          .detailedSettled (.response true (some (.array (List.replicate 25 0)))),
          .nextClick, .nextClick, .nextClick, .nextClick]).allDetailedData.length : Int) :=
  (page_stays_in_range (fun t : Int => some t) (blankPage Int)
    [.viewClick "detailed", .detailedSettled (.response true (some (.array (List.replicate 25 0)))),
      .nextClick, .nextClick, .nextClick, .nextClick]).2.1 (by decide)

/-- C4, amended: two consecutive clicks on the theme toggle after
initialisation leave the body's `dark-mode` class membership as it was, leave
the stored `darkMode` as the string form of that membership and the theme icon
(when there is one) as the icon matching it; the theme icon and the stored
`darkMode` are both what they were before the first click exactly when the
stored `darkMode` at initialisation was `"true"`, or was `"false"` with the
body lacking the class. -/
theorem two_theme_clicks_restore (p : ControlsPage) (htoggle : p.themeToggle = true) :
    ((domContentLoaded p).run [.themeClick, .themeClick]).bodyDark =
      (domContentLoaded p).bodyDark ∧
    ((domContentLoaded p).run [.themeClick, .themeClick]).storage.getItem "darkMode" =
      some (jsString (domContentLoaded p).bodyDark) ∧
    ((domContentLoaded p).run [.themeClick, .themeClick]).themeIcon =
      (domContentLoaded p).themeIcon.map
        (fun _ => themeIconClass (domContentLoaded p).bodyDark) ∧
    ((((domContentLoaded p).run [.themeClick, .themeClick]).themeIcon =
        (domContentLoaded p).themeIcon ∧
      ((domContentLoaded p).run [.themeClick, .themeClick]).storage.getItem "darkMode" =
        (domContentLoaded p).storage.getItem "darkMode") ↔
      (p.storage.getItem "darkMode" = some "true" ∨
        (p.storage.getItem "darkMode" = some "false" ∧ p.bodyDark = false))) := by
  obtain ⟨hst, htt, -, hbd, hti, -, -⟩ := domContentLoaded_fields p
  obtain ⟨h1, h2, h3⟩ := two_clicks_fields (domContentLoaded p) (by rw [htt, htoggle])
  refine ⟨h1, h2, h3, ?_⟩
  rw [h2, h3, hti, hbd, hst]
  cases hv : p.storage.getItem "darkMode" with
  | none => simp
  | some v =>
    by_cases hvt : v = "true"
    · subst hvt
      cases p.themeIcon <;> simp [jsString]
    · by_cases hvf : v = "false"
      · subst hvf
        cases p.themeIcon <;> cases p.bodyDark <;> simp [jsString, themeIconClass]
      · have : ¬ jsString p.bodyDark = v := by
          cases p.bodyDark
          · simpa [jsString] using fun h => hvf h.symm
          · simpa [jsString] using fun h => hvt h.symm
        simp [hvt, hvf, this]

theorem two_theme_clicks_restore_witness :
    blankControls.themeToggle = true ∧
    ((domContentLoaded blankControls).run [.themeClick, .themeClick]).bodyDark =
      (domContentLoaded blankControls).bodyDark ∧
    ((domContentLoaded blankControls).run [.themeClick, .themeClick]).storage.getItem
      "darkMode" = some (jsString (domContentLoaded blankControls).bodyDark) :=
  ⟨rfl, (two_theme_clicks_restore blankControls rfl).1,
    (two_theme_clicks_restore blankControls rfl).2.1⟩

/-- C4, as stated, fails when the key `darkMode` is absent: after two clicks
the stored value is `"false"`. -/
theorem two_theme_clicks_change_storage :
    ¬ (((domContentLoaded blankControls).run [.themeClick, .themeClick]).bodyDark =
        (domContentLoaded blankControls).bodyDark ∧
      ((domContentLoaded blankControls).run [.themeClick, .themeClick]).themeIcon =
        (domContentLoaded blankControls).themeIcon ∧
      ((domContentLoaded blankControls).run [.themeClick, .themeClick]).storage.getItem
        "darkMode" = (domContentLoaded blankControls).storage.getItem "darkMode") := by
  decide

/-- C5, as stated, fails after a click on the music toggle when the body was
parsed with the `dark-mode` class and `darkMode` is not stored: the session's
body keeps the class, the fresh page loaded with the resulting storage does not
get it. -/
theorem music_click_does_not_store_dark_mode :
    ¬ ((({ blankControls with bodyDark := true } : ControlsPage).session
          [.musicClick]).storage.getItem "musicEnabled" =
        some (jsString (({ blankControls with bodyDark := true } : ControlsPage).session
          [.musicClick]).musicEnabled) ∧
      (reload blankControls (({ blankControls with bodyDark := true } : ControlsPage).session
          [.musicClick])).bodyDark =
        (({ blankControls with bodyDark := true } : ControlsPage).session
          [.musicClick]).bodyDark ∧
      (reload blankControls (({ blankControls with bodyDark := true } : ControlsPage).session
          [.musicClick])).themeIcon =
        (({ blankControls with bodyDark := true } : ControlsPage).session
          [.musicClick]).themeIcon ∧
      (reload blankControls (({ blankControls with bodyDark := true } : ControlsPage).session
          [.musicClick])).musicEnabled =
        (({ blankControls with bodyDark := true } : ControlsPage).session
          [.musicClick]).musicEnabled ∧
      (reload blankControls (({ blankControls with bodyDark := true } : ControlsPage).session
          [.musicClick])).musicIcon =
        (({ blankControls with bodyDark := true } : ControlsPage).session
          [.musicClick]).musicIcon) := by
  decide

/-- C5, amended: in any session (initialisation followed by any events), after
a click on the theme toggle the stored `darkMode` is the string form of the
body's new `dark-mode` class membership, and loading a fresh page (body without
the class, same elements) with that storage reproduces the dark-mode state, the
theme icon, the `musicEnabled` flag and the music icon; after a click on the
music toggle the stored `musicEnabled` is the string form of the new flag, the
fresh page reproduces the flag and the music icon, and it reproduces the
dark-mode state and the theme icon exactly when the page of the session was
parsed with a body without the class, or the `darkMode` stored at its
initialisation was `"true"`, or the theme toggle was clicked earlier in the
session. -/
theorem preferences_round_trip (p q : ControlsPage) (events : List ControlsEvent)
    (hfresh : q.bodyDark = false)
    (hti : q.themeIcon.isSome = p.themeIcon.isSome)
    (hmi : q.musicIcon.isSome = p.musicIcon.isSome) :
    (p.themeToggle = true → ∀ s, s = p.session (events ++ [.themeClick]) →
      s.storage.getItem "darkMode" = some (jsString s.bodyDark) ∧
      (reload q s).bodyDark = s.bodyDark ∧
      (reload q s).themeIcon = s.themeIcon ∧
      (reload q s).musicEnabled = s.musicEnabled ∧
      (reload q s).musicIcon = s.musicIcon) ∧
    (p.musicToggle = true → ∀ s, s = p.session (events ++ [.musicClick]) →
      s.storage.getItem "musicEnabled" = some (jsString s.musicEnabled) ∧
      (reload q s).musicEnabled = s.musicEnabled ∧
      (reload q s).musicIcon = s.musicIcon ∧
      (((reload q s).bodyDark = s.bodyDark ∧ (reload q s).themeIcon = s.themeIcon) ↔
        (p.bodyDark = false ∨ p.storage.getItem "darkMode" = some "true" ∨
          (p.themeToggle = true ∧ ControlsEvent.themeClick ∈ events)))) := by
  have hinv := mirrored_run p events _ (mirrored_domContentLoaded p)
  have hmusic : ∀ s, Mirrored p s →
      (reload q s).musicEnabled = s.musicEnabled ∧ (reload q s).musicIcon = s.musicIcon := by
    intro s ⟨_, _, h3, h4, _, _⟩
    obtain ⟨hst, -, -, -, -, hme, hmic⟩ := domContentLoaded_fields { q with storage := s.storage }
    unfold reload
    simp only at hst hme hmic
    rw [hme, hmic, ← h3, h4]
    refine ⟨rfl, ?_⟩
    revert hmi
    cases q.musicIcon <;> cases p.musicIcon <;> simp
  constructor
  · intro htoggle s hs
    have hm : Mirrored p s := by
      rw [hs]; exact mirrored_run p _ _ (mirrored_domContentLoaded p)
    have hs' : s = themeToggleClick ((domContentLoaded p).run events) := by
      rw [hs]
      simp [ControlsPage.session, ControlsPage.run, List.foldl_append, ControlsPage.handle]
      intro hf
      have := hinv.1
      simp [ControlsPage.run] at this
      rw [this, htoggle] at hf
      exact absurd hf (by simp)
    obtain ⟨hbd, hst, hic, -, -, -, -⟩ := themeToggleClick_fields ((domContentLoaded p).run events)
    rw [← hs'] at hbd hst hic
    have hstored : s.storage.getItem "darkMode" = some (jsString s.bodyDark) := by
      rw [hst, hbd]; simp [Storage.getItem, Storage.setItem]
    obtain ⟨-, -, -, hrb, hri, -, -⟩ := domContentLoaded_fields { q with storage := s.storage }
    simp only at hrb hri
    refine ⟨hstored, ?_, ?_, hmusic s hm⟩
    · unfold reload
      rw [hrb, hstored, hfresh]
      cases s.bodyDark <;> simp [jsString]
    · unfold reload
      rw [hri, hstored, hic]
      have h5 := hinv.2.2.2.2.1
      have hb : decide (some (jsString s.bodyDark) = some "true") = s.bodyDark := by
        cases s.bodyDark <;> simp [jsString]
      rw [hb, hbd]
      revert h5 hti
      cases q.themeIcon <;> cases p.themeIcon <;>
        cases ((domContentLoaded p).run events).themeIcon <;> simp
  · intro htoggle s hs
    have hm : Mirrored p s := by
      rw [hs]; exact mirrored_run p _ _ (mirrored_domContentLoaded p)
    have hs' : s = musicToggleClick ((domContentLoaded p).run events) := by
      rw [hs]
      simp [ControlsPage.session, ControlsPage.run, List.foldl_append, ControlsPage.handle]
      intro hf
      have := hinv.2.1
      simp [ControlsPage.run] at this
      rw [this, htoggle] at hf
      exact absurd hf (by simp)
    obtain ⟨hme, hst, -, -, -, -, -⟩ := musicToggleClick_fields ((domContentLoaded p).run events)
    rw [← hs'] at hme hst
    have hstored : s.storage.getItem "musicEnabled" = some (jsString s.musicEnabled) := by
      rw [hst, hme]; simp [Storage.getItem, Storage.setItem]
    refine ⟨hstored, (hmusic s hm).1, (hmusic s hm).2, ?_⟩
    have hdark : DarkMirrored s ↔
        (p.bodyDark = false ∨ p.storage.getItem "darkMode" = some "true" ∨
          (p.themeToggle = true ∧ ControlsEvent.themeClick ∈ events)) := by
      rw [hs]
      unfold ControlsPage.session
      rw [darkMirrored_run, darkMirrored_domContentLoaded,
        (domContentLoaded_fields p).2.1]
      simp [or_assoc]
    rw [← hdark]
    obtain ⟨-, -, -, hrb, hri, -, -⟩ := domContentLoaded_fields { q with storage := s.storage }
    simp only at hrb hri
    have hrb' : (reload q s).bodyDark = decide (s.storage.getItem "darkMode" = some "true") := by
      unfold reload
      rw [hrb, hfresh]
      simp
    constructor
    · rintro ⟨hb, -⟩
      unfold DarkMirrored
      rw [← hb, hrb']
    · intro hd
      have hd' : s.bodyDark = decide (s.storage.getItem "darkMode" = some "true") := hd
      refine ⟨by rw [hrb', ← hd'], ?_⟩
      unfold reload
      rw [hri, ← hd', hm.2.2.2.2.2 hd]
      revert hti
      cases q.themeIcon <;> cases p.themeIcon <;> simp

theorem preferences_round_trip_witness :
    blankControls.themeToggle = true ∧
    (blankControls.session ([.musicClick, .gesture] ++ [.themeClick])).storage.getItem
      "darkMode" = some "true" ∧
    (reload blankControls
      (blankControls.session ([.musicClick, .gesture] ++ [.themeClick]))).bodyDark = true ∧
    (reload blankControls
      (blankControls.session ([.musicClick, .gesture] ++ [.themeClick]))).musicEnabled =
        false :=
  have h := (preferences_round_trip blankControls blankControls [.musicClick, .gesture]
    rfl rfl rfl).1 rfl _ rfl
  ⟨rfl, by decide, h.2.1.trans (by decide), h.2.2.2.1.trans (by decide)⟩

end SmartPlay
